import Mathlib

/-!
Verification development for the asynchronous orchestration subsystem
of the we-dash terminal dashboard (source: src/we_dash/app.py).

The embedding translates the Python source into Lean definitions:
* `Service` records carry the fields that app.py reads and writes
  (models.py is not part of the sources, so the record shape is taken
  from the data model of the spec and from the attribute accesses in
  app.py);
* stateful methods become pure functions that return the new state
  together with an explicit trace of the externally visible events they
  perform (log-sink writes, task cancellations, process spawns, UI cell
  updates);
* Python truthiness on optional strings and ints is modelled
  explicitly;
* fallible list indexing (a Python `xs[i]` that may raise IndexError)
  is modelled with `Option`, where `none` stands for the raised
  exception.
-/

set_option autoImplicit false

namespace WeDash

/-- One manageable unit, as read and written by app.py
(`svc.name`, `svc.unit`, `svc.project`, `svc.dir`, `svc.runlog`,
`svc.active`, `svc.pid`, `svc.updated_at`).  models.py is not under
the sources; the field types follow the data model of the spec: the
live fields are an optional activity-state string, an optional process
id and an optional last-updated timestamp. -/
structure Service where
  name : String
  unit : String
  project : Option String
  dir : String
  runlog : Option String
  active : Option String
  pid : Option Int
  updated_at : Option Nat
  deriving DecidableEq, Repr

/-- Python truthiness of an optional string: `None` and `""` are falsy. -/
def truthyStr : Option String → Bool
  | none => false
  | some s => !(s == "")

/-- Python `a or d` for an optional string `a` and default `d`. -/
def pyOr (a : Option String) (d : String) : String :=
  match a with
  | none => d
  | some s => if s == "" then d else s

/-- Python `str(x)` for an optional int (`str(None) = "None"`). -/
def pyStr : Option Int → String
  | some n => toString n
  | none => "None"

/-- Python `line.rstrip("\n")`: drop trailing newline characters. -/
def rstripNl (s : String) : String :=
  String.mk ((s.data.reverse.dropWhile (fun c => c == '\n')).reverse)

/-- Python `" ".join(argv)`. -/
def joinSpace (argv : List String) : String :=
  String.intercalate " " argv

/-- Raw answer of the external process manager for one unit: either the
raw activity text together with an optional process id, or a failure to
reach the process manager (or an absent unit). -/
inductive RawProbe where
  | ok (state : String) (pid : Option Int)
  | failure
  deriving DecidableEq, Repr

/-- Modelled from the spec: the status prober normalizes the raw
activity text of the process manager into the enumeration
`unknown | active | inactive | failed` (spec section 4.5;
`probe_status` lives in we_dash/commands.py, which is not under the
sources). -/
def normalize_state (s : String) : String :=
  if s == "active" then "active"
  else if s == "inactive" then "inactive"
  else if s == "failed" then "failed"
  else "unknown"

/-- Modelled from the spec: `probe_status(svc)` returns
`(activity_state, pid_or_absent)` and never raises — any failure
resolves to `(unknown, absent)` (spec section 4.5). -/
def probe_status : RawProbe → Option String × Option Int
  | RawProbe.ok s p => (some (normalize_state s), p)
  | RawProbe.failure => (some "unknown", none)

/-- Embedding of the diff-gated merge done per row by
`WeDashApp._periodic_status_refresh.probe_row` (app.py lines 370-380):

    active, pid = await probe_status(svc)
    changed = False
    if active and active != svc.active:
        svc.active = active
        changed = True
    if pid is not None and pid != svc.pid:
        svc.pid = pid
        changed = True
    if changed:
        svc.updated_at = time.time()
        self._update_row_by_row(row, svc)

Returns the (possibly) updated record and whether the UI notification
`_update_row_by_row` fired. -/
def probe_row_merge (svc : Service) (active : Option String) (pid : Option Int)
    (now : Nat) : Service × Bool :=
  let c1 : Bool := truthyStr active && decide (active ≠ svc.active)
  let svc1 : Service := if c1 then { svc with active := active } else svc
  let c2 : Bool := pid.isSome && decide (pid ≠ svc.pid)
  let svc2 : Service := if c2 then { svc1 with pid := pid } else svc1
  if c1 || c2 then ({ svc2 with updated_at := some now }, true)
  else (svc2, false)

/-- Embedding of the on-demand update done by
`WeDashApp._on_row_highlighted` (app.py lines 162-166) after probing
the newly selected service:

    active, pid = await probe_status(svc)
    if active:
        svc.active = active
        if pid is not None:
            svc.pid = pid

No diff against the recorded values, and no `updated_at` stamp. -/
def on_row_highlighted_update (svc : Service) (active : Option String)
    (pid : Option Int) : Service :=
  if truthyStr active then
    let svc1 : Service := { svc with active := active }
    if pid.isSome then { svc1 with pid := pid } else svc1
  else svc

/-- Embedding of `WeDashApp._format_updated` (app.py lines 350-354):
`"-"` when the timestamp is unset, else a wall-clock rendering of it.
The `time.strftime` rendering is parametrized as `fmt`. -/
def format_updated (fmt : Nat → String) (u : Option Nat) : String :=
  match u with
  | none => "-"
  | some t => fmt t

/-- Row cells produced by `WeDashApp._add_row` (app.py lines 172-180):
`status = svc.active or "?"`, then in full column mode
`(status, name, str(pid), unit, project or "-", runlog or "-",
updated)`, else `(status, name, str(pid))`. -/
def add_row_cells (mode : String) (fmt : Nat → String) (svc : Service) :
    List String :=
  if mode == "full" then
    [pyOr svc.active "?", svc.name, pyStr svc.pid, svc.unit,
     pyOr svc.project "-", pyOr svc.runlog "-",
     format_updated fmt svc.updated_at]
  else
    [pyOr svc.active "?", svc.name, pyStr svc.pid]

/-- Row cells written by `WeDashApp._update_row_by_row` (app.py lines
182-192): cells 0-2 always (`status`, `name`, `str(pid)`), cells 3-6
additionally in full column mode. -/
def update_row_cells (mode : String) (fmt : Nat → String) (svc : Service) :
    List String :=
  [pyOr svc.active "?", svc.name, pyStr svc.pid] ++
    (if mode == "full" then
      [svc.unit, pyOr svc.project "-", pyOr svc.runlog "-",
       format_updated fmt svc.updated_at]
    else [])

/-- Externally visible events of the follow-session controller. -/
inductive FEv where
  | cancel (tid : Nat)
  | signalProc (tid : Nat)
  | awaitDone (tid : Nat)
  | logClear
  | logWrite (s : String)
  | spawnTask (tid : Nat) (argv : List String)
  deriving DecidableEq, Repr

/-- Embedding of the argv choice in `_start_follow` (app.py lines
280-283): forced journal mode always queries journalctl for the unit id
of the service; the default mode uses the configured follow argv
builder (`follow_argv` lives in we_dash/commands.py, not under the
sources, and is passed in as a parameter). -/
def follow_argv_of (followArgv : Service → List String) (svc : Service)
    (forceJournal : Bool) : List String :=
  if forceJournal then ["journalctl", "--user", "-f", "-u", svc.unit]
  else followArgv svc

/-- Embedding of `WeDashApp._start_follow` (app.py lines 271-303) as a
state transition emitting its event trace.  The state is the id of the
live follow task, if any (`self._follow_task`); `taskDone t` models
`self._follow_task.done()`.  A live previous task is cancelled and then
awaited (`with suppress(Exception): await self._follow_task`) before
anything else happens.  Modelled from the spec: during that await the
Command Runner (`run_command` in we_dash/commands.py, spec section 4.1)
signals the underlying OS process and does not resolve before the
signal has been issued — hence the `signalProc` event between `cancel`
and `awaitDone`.  Only afterwards is the log cleared, the command line
echoed, and the task of the new stream spawned. -/
def start_follow (followTask : Option Nat) (taskDone : Nat → Bool)
    (newTid : Nat) (argv : List String) : Option Nat × List FEv :=
  let pre : List FEv :=
    match followTask with
    | some t =>
      if taskDone t then []
      else [FEv.cancel t, FEv.signalProc t, FEv.awaitDone t]
    | none => []
  (some newTid,
   pre ++ [FEv.logClear, FEv.logWrite ("$ " ++ joinSpace argv ++ "\n"),
           FEv.spawnTask newTid argv])

/-- Events of a one-shot command execution: a write to the log sink, the
arrival of one output line (stdout or stderr) from the running process,
or the process terminating with an exit code. -/
inductive OEv where
  | sink (s : String)
  | arrive (line : String)
  | exited (rc : Int)
  deriving DecidableEq, Repr

/-- Whether a one-shot event is a log-sink write. -/
def isSink : OEv → Bool
  | OEv.sink _ => true
  | _ => false

/-- Embedding of `WeDashApp._run_one_shot` (app.py lines 305-321) as an
event trace.  The underlying `run_command` (we_dash/commands.py, not
under the sources) is modelled from the spec (section 4.1): it delivers
each produced output line to the callbacks of the caller as it arrives
and resolves with the exit code of the process once it terminates.  The
callbacks `_out` and `_err` append the rstripped line to the local
`lines` buffer; only after `run_command` resolves are the buffered
lines written to the log sink, followed by the exit annotation, and the
exit code is returned.  `output` is the list of produced lines in
arrival order. -/
def run_one_shot (argv : List String) (output : List String) (rc : Int) :
    List OEv × Int :=
  (OEv.sink ("$ " ++ joinSpace argv ++ "\n")
     :: (output.map OEv.arrive ++ [OEv.exited rc])
     ++ output.map (fun l => OEv.sink (rstripNl l))
     ++ [OEv.sink ("\n[exit " ++ toString rc ++ "]")],
   rc)

/-- The string written by a one-shot sink event, if it is one. -/
def sinkStr : OEv → Option String
  | OEv.sink s => some s
  | _ => none

/-- The log-sink writes of a one-shot event trace, in order. -/
def sinkWrites (evs : List OEv) : List String :=
  evs.filterMap sinkStr

/-- Events of the restart action: an inline notice, or one execution of
the one-shot executor with its exit code. -/
inductive REv where
  | toast (s : String)
  | oneShot (argv : List String) (rc : Int)
  deriving DecidableEq, Repr

/-- Modelled from the spec: `restart_sequence` lives in
we_dash/commands.py, which is not under the sources.  Spec section 4.4:
native `[restart]` when the "restart" target exists, else the emulated
`[down, up]` when both exist, else the empty (unsupported) sequence. -/
def restart_sequence (hasTarget : String → Bool)
    (restartArgv downArgv upArgv : List String) : List (List String) :=
  if hasTarget "restart" then [restartArgv]
  else if hasTarget "down" && hasTarget "up" then [downArgv, upArgv]
  else []

/-- Embedding of the step loop of `WeDashApp.action_do_restart` (app.py
lines 236-239): run each step through the one-shot executor in order
and stop after the first nonzero exit code.

    for argv in seq:
        rc = await self._run_one_shot(argv, svc)
        if rc != 0:
            break
-/
def restart_steps (exec : List String → Int) : List (List String) → List REv
  | [] => []
  | a :: rest =>
    if exec a ≠ 0 then [REv.oneShot a (exec a)]
    else REv.oneShot a (exec a) :: restart_steps exec rest

/-- Embedding of `WeDashApp.action_do_restart` (app.py lines 226-239)
given the capability-derived sequence: an empty sequence only surfaces
the "Restart not supported" notice; a two-step sequence first surfaces
the emulation notice; then the steps run with abort-on-failure. -/
def action_do_restart (seq : List (List String))
    (exec : List String → Int) : List REv :=
  if seq = [] then [REv.toast "Restart not supported; missing targets"]
  else
    (if seq.length = 2 then [REv.toast "Emulating restart: down → up"]
     else [])
      ++ restart_steps exec seq

/-- The sink writes performed by one restart-action event: `_toast`
writes a `[note]` line, a one-shot execution writes the sink writes of
its trace (`outputOf a` is the output the command `a` produces). -/
def restart_ev_sink (outputOf : List String → List String) : REv → List String
  | REv.toast s => ["[note] " ++ s]
  | REv.oneShot a rc => sinkWrites (run_one_shot a (outputOf a) rc).1

/-- The sink writes of a list of restart-action events, concatenated in
order. -/
def restart_sink_evs (outputOf : List String → List String) :
    List REv → List String
  | [] => []
  | e :: rest => restart_ev_sink outputOf e ++ restart_sink_evs outputOf rest

/-- All sink writes of a restart action, in order. -/
def restart_sink (seq : List (List String)) (exec : List String → Int)
    (outputOf : List String → List String) : List String :=
  restart_sink_evs outputOf (action_do_restart seq exec)

/-- A one-shot outcome function for the C3 witness: the "down" step
fails with exit code 2, everything else succeeds. -/
def execW3 : List String → Int :=
  fun x => if x = ["make", "down"] then 2 else 0

/-- Outcome of one iteration body of the `while True` loop in
`_periodic_status_refresh`: completed normally, hit
`asyncio.CancelledError`, or raised some other exception. -/
inductive TickOutcome where
  | ok
  | cancelled
  | exn
  deriving DecidableEq, Repr

/-- Loop control of `_periodic_status_refresh` (app.py lines 383-387):
`except asyncio.CancelledError: break`; `except Exception: continue`; a
normally completed tick also continues.  `true` means the loop keeps
running. -/
def loop_continues : TickOutcome → Bool
  | TickOutcome.cancelled => false
  | _ => true

/-- Embedding of one `probe_row` call of `_periodic_status_refresh`
(app.py lines 366-380): look up the backing registry index of the row
(`idx = self._rows[row]`), the service
(`svc = self.state.services[idx]`), probe it, and diff-merge the
result.  Both indexings are performed without bounds validation; `none`
models the IndexError they raise when the collection has shrunk since
the row snapshot.  On success, returns the updated registry and whether
the UI was notified for the row. -/
def probe_row (rowsMap : List Nat) (services : List Service) (row : Nat)
    (raw : RawProbe) (now : Nat) : Option (List Service × Bool) :=
  match rowsMap.get? row with
  | none => none
  | some idx =>
    match services.get? idx with
    | none => none
    | some svc =>
      let res := probe_status raw
      let m := probe_row_merge svc res.1 res.2 now
      some (services.set idx m.1, m.2)

/-- Embedding of one refresh tick (app.py lines 360-382): the snapshot
`rows = list(range(len(self._rows)))` is processed row by row.  The
bounded-concurrency fan-out mutates disjoint rows, so its merge of row
results is serialised as this sequential fold.  `raws r` is the answer
of the process manager for row `r`. -/
def run_tick (services : List Service) (rowsMap : List Nat)
    (rows : List Nat) (raws : Nat → RawProbe) (now : Nat) :
    Option (List Service × List Bool) :=
  match rows with
  | [] => some (services, [])
  | r :: rest =>
    match probe_row rowsMap services r (raws r) now with
    | none => none
    | some (services1, notified) =>
      match run_tick services1 rowsMap rest raws now with
      | none => none
      | some (services2, ns) => some (services2, notified :: ns)

/-- Embedding of the tab filter of `_visible_indices` (app.py lines
337-346): `a = (svc.active or "").lower()`; `"all"` matches
everything, `"active"` and `"failed"` match the corresponding lowered
state, anything else matches everything. -/
def matches_filter (filt : String) (svc : Service) : Bool :=
  let a := (pyOr svc.active "").toLower
  if filt == "all" then true
  else if filt == "active" then a == "active"
  else if filt == "failed" then a == "failed"
  else true

/-- Embedding of `WeDashApp._visible_indices` (app.py lines 328-348):
the indices of the services matching the search and the tab filter, in
registry order.  The search match (a Python substring test over name,
unit and project) is parametrized as `search_pred`; the claims only
depend on which indices can appear, not on the search semantics. -/
def visible_indices (services : List Service) (search_pred : Service → Bool)
    (filt : String) : List Nat :=
  (List.range services.length).filter (fun i =>
    (services.get? i).elim false
      (fun s => search_pred s && matches_filter filt s))

/-- Embedding of `WeDashApp._select_row` (app.py lines 121-125): the
selected index is updated to `self._rows[row_index]` only after the
bounds check `0 <= row_index < len(self._rows)`; otherwise it is left
unchanged. -/
def select_row (rowsMap : List Nat) (selectedIndex : Nat)
    (rowIndex : Nat) : Nat :=
  if rowIndex < rowsMap.length then
    match rowsMap.get? rowIndex with
    | some idx => idx
    | none => selectedIndex
  else selectedIndex

/-- Embedding of `WeDashApp._selected_service` (app.py lines 127-136):
`cursorRow` is `self.table.cursor_row` (`none` when no cursor).  The
row index is validated against `len(self._rows)`; the derived registry
index is then used *unchecked* (`return self.state.services[svc_idx]`),
which is safe only via the rebuild invariant that every `_rows` entry
is below the registry length.  Outer `none` models a raised IndexError;
the inner option is the returned value. -/
def selected_service (rowsMap : List Nat) (services : List Service)
    (cursorRow : Option Nat) : Option (Option Service) :=
  match cursorRow with
  | none => some none
  | some row =>
    if row < rowsMap.length then
      match rowsMap.get? row with
      | none => none
      | some idx =>
        match services.get? idx with
        | none => none
        | some svc => some (some svc)
    else some none

/-- Embedding of the index lookups of `WeDashApp._on_row_highlighted`
(app.py lines 148-161): the row is validated against
`len(self._rows)`, and the derived registry index is validated against
`len(self.state.services)` before the service is read.  Outer `none`
models a raised IndexError (never reached); `some none` models the
guarded early returns; `some (some (idx, svc))` proceeds to the probe. -/
def row_highlight_lookup (rowsMap : List Nat) (services : List Service)
    (row : Nat) : Option (Option (Nat × Service)) :=
  if row < rowsMap.length then
    match rowsMap.get? row with
    | none => none
    | some idx =>
      if idx < services.length then
        match services.get? idx with
        | none => none
        | some svc => some (some (idx, svc))
      else some none
    else some none

/-- A sample service record with a recorded activity state and pid,
used to exercise the periodic-refresh merge. -/
def svcC5 : Service :=
  { name := "api", unit := "we-api.service", project := some "demo",
    dir := "/srv/api", runlog := some "/srv/api/run.log",
    active := some "active", pid := some 123, updated_at := none }

/-- A second sample service record, for the witness instances. -/
def svcW5 : Service :=
  { name := "worker", unit := "we-worker.service", project := none,
    dir := "/srv/worker", runlog := none,
    active := some "active", pid := some 123, updated_at := none }

/-- A third sample service record, for the idempotence witness. -/
def svcW6 : Service :=
  { name := "db", unit := "we-db.service", project := some "demo",
    dir := "/srv/db", runlog := none,
    active := some "inactive", pid := none, updated_at := some 5 }

/-- A sample service for the C10 witness, whose recorded values equal
the probed ones. -/
def svcW10 : Service :=
  { name := "cache", unit := "we-cache.service", project := none,
    dir := "/srv/cache", runlog := none,
    active := some "active", pid := some 5, updated_at := some 11 }

/-- A service that is not active but still carries a recorded pid. -/
def svcC8 : Service :=
  { name := "web", unit := "we-web.service", project := none,
    dir := "/srv/web", runlog := none,
    active := some "inactive", pid := some 123, updated_at := none }

/-- A sample service for the C1 witness. -/
def svcW1 : Service :=
  { name := "gw", unit := "we-gw.service", project := none,
    dir := "/srv/gw", runlog := some "/srv/gw/run.log",
    active := some "active", pid := some 17, updated_at := none }

/-- Sample services for the C2 witness. -/
def svcW2a : Service :=
  { name := "alpha", unit := "we-alpha.service", project := none,
    dir := "/srv/alpha", runlog := none,
    active := some "active", pid := some 1, updated_at := none }

/-- Second sample service for the C2 witness. -/
def svcW2b : Service :=
  { name := "beta", unit := "we-beta.service", project := none,
    dir := "/srv/beta", runlog := none,
    active := some "unknown", pid := none, updated_at := none }

/-- A sample service for the C9 counterexample. -/
def svcC9 : Service :=
  { name := "old", unit := "we-old.service", project := none,
    dir := "/srv/old", runlog := none,
    active := some "active", pid := some 2, updated_at := none }

/-- A sample service for the C9 witness. -/
def svcW9 : Service :=
  { name := "new", unit := "we-new.service", project := none,
    dir := "/srv/new", runlog := none,
    active := some "failed", pid := none, updated_at := none }

/-- The activity state returned by the prober is always a nonempty
string, so the Python `if active:` test succeeds on every prober
result. -/
theorem probe_status_truthy (r : RawProbe) : truthyStr (probe_status r).1 = true := by
  cases r with
  | ok s p =>
    simp only [probe_status, normalize_state, truthyStr]
    by_cases h1 : s == "active" <;> by_cases h2 : s == "inactive" <;>
      by_cases h3 : s == "failed" <;> simp [h1, h2, h3]
  | failure => rfl

/-- Whenever the periodic-refresh merge reports a change, it stamps the
last-updated timestamp. -/
theorem probe_row_merge_stamps (svc : Service) (a : Option String)
    (p : Option Int) (now : Nat) :
    (probe_row_merge svc a p now).2 = true →
    (probe_row_merge svc a p now).1.updated_at = some now := by
  by_cases h1 : truthyStr a <;> by_cases h2 : a = svc.active <;>
    by_cases h3 : p.isSome <;> by_cases h4 : p = svc.pid <;>
    simp [probe_row_merge, h1, h2, h3, h4]

/-- The sink writes of a one-shot execution: the echoed command line,
the buffered rstripped output lines, and the exit annotation. -/
theorem sinkWrites_run_one_shot (argv output : List String) (rc : Int) :
    sinkWrites (run_one_shot argv output rc).1
      = ("$ " ++ joinSpace argv ++ "\n")
          :: (output.map rstripNl ++ ["\n[exit " ++ toString rc ++ "]"]) := by
  have h1 : ∀ out : List String,
      List.filterMap sinkStr (out.map OEv.arrive) = [] := by
    intro out
    induction out with
    | nil => rfl
    | cons x t ih => simp [sinkStr, ih]
  have h2 : ∀ out : List String,
      List.filterMap sinkStr (out.map (fun l => OEv.sink (rstripNl l)))
          = out.map rstripNl := by
    intro out
    induction out with
    | nil => rfl
    | cons x t ih => simp [sinkStr, ih]
  simp [sinkWrites, run_one_shot, List.filterMap_append, h1, h2, sinkStr]

/-- The last sink write of a one-shot execution is its exit annotation. -/
theorem sinkWrites_last (argv output : List String) (rc : Int) :
    (sinkWrites (run_one_shot argv output rc).1).getLast?
      = some ("\n[exit " ++ toString rc ++ "]") := by
  rw [sinkWrites_run_one_shot]
  show ((("$ " ++ joinSpace argv ++ "\n") :: output.map rstripNl)
      ++ ["\n[exit " ++ toString rc ++ "]"]).getLast? = _
  exact List.getLast?_concat _

/-- Concatenating event lists concatenates their sink writes. -/
theorem restart_sink_evs_append (outputOf : List String → List String)
    (xs ys : List REv) :
    restart_sink_evs outputOf (xs ++ ys)
      = restart_sink_evs outputOf xs ++ restart_sink_evs outputOf ys := by
  induction xs with
  | nil => rfl
  | cons e t ih => simp [restart_sink_evs, ih]

/-- Structure of the executed restart steps: a nonempty prefix
`pre ++ [a]` of the sequence runs in order, every step before the
stopping step `a` exited zero, and execution stopped before the end of
the sequence only because `a` exited nonzero. -/
theorem restart_steps_spec (exec : List String → Int) :
    ∀ seq : List (List String), seq ≠ [] →
    ∃ (pre : List (List String)) (a : List String),
      seq.take (pre.length + 1) = pre ++ [a] ∧
      restart_steps exec seq
        = (pre ++ [a]).map (fun x => REv.oneShot x (exec x)) ∧
      (∀ x ∈ pre, exec x = 0) ∧
      (pre.length + 1 < seq.length → exec a ≠ 0) := by
  intro seq
  induction seq with
  | nil => intro h; exact absurd rfl h
  | cons a rest ih =>
    intro _
    by_cases ha : exec a = 0
    · cases rest with
      | nil =>
        refine ⟨[], a, rfl, ?_, by simp, by simp⟩
        simp [restart_steps, ha]
      | cons b rest2 =>
        obtain ⟨pre, stop, htake, hsteps, hzero, hfail⟩ :=
          ih (by simp)
        refine ⟨a :: pre, stop, ?_, ?_, ?_, ?_⟩
        · simp only [List.length_cons, List.take_succ_cons, htake,
            List.cons_append]
        · have hun : restart_steps exec (a :: b :: rest2)
              = REv.oneShot a (exec a) :: restart_steps exec (b :: rest2) := by
            simp [restart_steps, ha]
          rw [hun, hsteps, List.cons_append, List.map_cons]
        · intro x hx
          rcases List.mem_cons.mp hx with h | h
          · exact h ▸ ha
          · exact hzero x h
        · intro hlt
          apply hfail
          simp only [List.length_cons] at hlt ⊢
          omega
    · refine ⟨[], a, rfl, ?_, by simp, fun _ => ha⟩
      simp [restart_steps, ha]

/-- With in-range rows, a tick processes every row to completion — for
any probe answers, failures included — and preserves the registry
length. -/
theorem run_tick_total (rowsMap : List Nat) (raws : Nat → RawProbe)
    (now : Nat) :
    ∀ (rows : List Nat) (services : List Service),
      (∀ r ∈ rows, r < rowsMap.length) →
      (∀ i ∈ rowsMap, i < services.length) →
      ∃ s ns, run_tick services rowsMap rows raws now = some (s, ns) ∧
        ns.length = rows.length ∧ s.length = services.length := by
  intro rows
  induction rows with
  | nil =>
    intro services _ _
    exact ⟨services, [], rfl, rfl, rfl⟩
  | cons r rest ih =>
    intro services hrow hidx
    have hr : r < rowsMap.length := hrow r (List.mem_cons_self r rest)
    cases hmap : rowsMap.get? r with
    | none =>
      exact absurd (List.get?_eq_none.mp hmap) (by omega)
    | some idx =>
      have hidxmem : idx ∈ rowsMap := List.get?_mem hmap
      have hidxlt : idx < services.length := hidx idx hidxmem
      cases hsvc : services.get? idx with
      | none =>
        exact absurd (List.get?_eq_none.mp hsvc) (by omega)
      | some svc =>
        obtain ⟨s, ns, hrun, hlen, hslen⟩ :=
          ih (services.set idx
              (probe_row_merge svc (probe_status (raws r)).1
                (probe_status (raws r)).2 now).1)
            (fun x hx => hrow x (List.mem_cons_of_mem r hx))
            (fun i hi => by rw [List.length_set]; exact hidx i hi)
        refine ⟨s, (probe_row_merge svc (probe_status (raws r)).1
            (probe_status (raws r)).2 now).2 :: ns, ?_, ?_, ?_⟩
        · simp only [run_tick, probe_row, hmap, hsvc, hrun]
        · simp [hlen]
        · rw [hslen, List.length_set]

/-- Every visible-row entry produced by a table rebuild is below the
registry length. -/
theorem visible_indices_lt (services : List Service)
    (search_pred : Service → Bool) (filt : String) :
    ∀ i ∈ visible_indices services search_pred filt, i < services.length := by
  intro i hi
  have := List.of_mem_filter hi
  exact List.mem_range.mp (List.mem_of_mem_filter hi)

/-- C1: when a previous follow stream is still live, `_start_follow`
first cancels its task, the OS process of the cancelled stream is
signaled, and its full termination is awaited, all strictly before the
command of the new stream is spawned; the single task slot of the
controller then holds exactly the new task, so at most one follow
stream is live. -/
theorem c1_follow_switch_ordering (followTask : Option Nat)
    (taskDone : Nat → Bool) (newTid : Nat) (fa : Service → List String)
    (svc : Service) (fj : Bool) (t : Nat)
    (hlive : followTask = some t) (hnotdone : taskDone t = false) :
    (start_follow followTask taskDone newTid (follow_argv_of fa svc fj)).1
        = some newTid ∧
    ∃ i j k l : Nat, i < j ∧ j < k ∧ k < l ∧
      (start_follow followTask taskDone newTid
        (follow_argv_of fa svc fj)).2.get? i = some (FEv.cancel t) ∧
      (start_follow followTask taskDone newTid
        (follow_argv_of fa svc fj)).2.get? j = some (FEv.signalProc t) ∧
      (start_follow followTask taskDone newTid
        (follow_argv_of fa svc fj)).2.get? k = some (FEv.awaitDone t) ∧
      (start_follow followTask taskDone newTid
        (follow_argv_of fa svc fj)).2.get? l
          = some (FEv.spawnTask newTid (follow_argv_of fa svc fj)) := by
  subst hlive
  refine ⟨rfl, 0, 1, 2, 5, ?_, ?_, ?_, ?_, ?_, ?_, ?_⟩ <;>
    simp [start_follow, hnotdone]

/-- Witness for C1 at a concrete input: task 3 is live and not done,
task 4 is the new stream. -/
theorem c1_follow_switch_ordering_witness :
    (start_follow (some 3) (fun _ => false) 4
        (follow_argv_of (fun _ => ["tail", "-F", "run.log"]) svcW1 false)).1
        = some 4 ∧
    ∃ i j k l : Nat, i < j ∧ j < k ∧ k < l ∧
      (start_follow (some 3) (fun _ => false) 4
        (follow_argv_of (fun _ => ["tail", "-F", "run.log"]) svcW1 false)).2.get? i
          = some (FEv.cancel 3) ∧
      (start_follow (some 3) (fun _ => false) 4
        (follow_argv_of (fun _ => ["tail", "-F", "run.log"]) svcW1 false)).2.get? j
          = some (FEv.signalProc 3) ∧
      (start_follow (some 3) (fun _ => false) 4
        (follow_argv_of (fun _ => ["tail", "-F", "run.log"]) svcW1 false)).2.get? k
          = some (FEv.awaitDone 3) ∧
      (start_follow (some 3) (fun _ => false) 4
        (follow_argv_of (fun _ => ["tail", "-F", "run.log"]) svcW1 false)).2.get? l
          = some (FEv.spawnTask 4
              (follow_argv_of (fun _ => ["tail", "-F", "run.log"]) svcW1 false)) :=
  c1_follow_switch_ordering (some 3) (fun _ => false) 4
    (fun _ => ["tail", "-F", "run.log"]) svcW1 false 3 rfl rfl

/-- C2: during a refresh tick, the unexpected failure of an individual
probe does not abort the processing of the other rows nor the loop: the
prober absorbs the failure into the `(unknown, absent)` result, which
is merged for the failing row like any other result while every other
row is still processed, and the loop stops if and only if the iteration
was explicitly cancelled — any other exception makes it continue. -/
theorem c2_probe_failure_isolated (services : List Service)
    (rowsMap rows : List Nat) (raws : Nat → RawProbe) (now : Nat)
    (hrow : ∀ r ∈ rows, r < rowsMap.length)
    (hidx : ∀ i ∈ rowsMap, i < services.length) :
    (∃ s ns, run_tick services rowsMap rows raws now = some (s, ns) ∧
      ns.length = rows.length ∧ s.length = services.length) ∧
    probe_status RawProbe.failure = (some "unknown", none) ∧
    (∀ o : TickOutcome, loop_continues o = false ↔ o = TickOutcome.cancelled) := by
  refine ⟨run_tick_total rowsMap raws now rows services hrow hidx, rfl, ?_⟩
  intro o
  cases o <;> simp [loop_continues]

/-- Witness for C2 at a concrete input: two visible rows, the probe of
the first row fails, the tick still processes both rows. -/
theorem c2_probe_failure_isolated_witness :
    (∃ s ns, run_tick [svcW2a, svcW2b] [1, 0] [0, 1]
        (fun r => if r = 0 then RawProbe.failure
          else RawProbe.ok "active" (some 9)) 3 = some (s, ns) ∧
      ns.length = [0, 1].length ∧ s.length = [svcW2a, svcW2b].length) ∧
    probe_status RawProbe.failure = (some "unknown", none) ∧
    (∀ o : TickOutcome,
      loop_continues o = false ↔ o = TickOutcome.cancelled) :=
  c2_probe_failure_isolated [svcW2a, svcW2b] [1, 0] [0, 1]
    (fun r => if r = 0 then RawProbe.failure
      else RawProbe.ok "active" (some 9)) 3
    (by decide) (by decide)

/-- C3: for a nonempty capability-derived sequence, the restart action
executes the steps strictly in order through the one-shot executor as a
prefix `pre ++ [a]` of the sequence; every step before `a` exited zero,
a stop before the end of the sequence happens only on a nonzero exit,
and the final reported outcome — the last exit annotation written to
the log sink — is the exit code of `a`, the step that stopped execution
(the last step when all succeed). -/
theorem c3_restart_abort_on_failure (seq : List (List String))
    (exec : List String → Int) (outputOf : List String → List String)
    (h : seq ≠ []) :
    ∃ (pre : List (List String)) (a : List String),
      seq.take (pre.length + 1) = pre ++ [a] ∧
      restart_steps exec seq
        = (pre ++ [a]).map (fun x => REv.oneShot x (exec x)) ∧
      (∀ x ∈ pre, exec x = 0) ∧
      (pre.length + 1 < seq.length → exec a ≠ 0) ∧
      (restart_sink seq exec outputOf).getLast?
        = some ("\n[exit " ++ toString (exec a) ++ "]") := by
  obtain ⟨pre, a, htake, hsteps, hzero, hfail⟩ := restart_steps_spec exec seq h
  refine ⟨pre, a, htake, hsteps, hzero, hfail, ?_⟩
  have hne : restart_ev_sink outputOf (REv.oneShot a (exec a)) ≠ [] := by
    show sinkWrites (run_one_shot a (outputOf a) (exec a)).1 ≠ []
    rw [sinkWrites_run_one_shot]
    simp
  have hlastone : (restart_ev_sink outputOf (REv.oneShot a (exec a))).getLast?
      = some ("\n[exit " ++ toString (exec a) ++ "]") :=
    sinkWrites_last a (outputOf a) (exec a)
  unfold restart_sink action_do_restart
  rw [if_neg h, hsteps, restart_sink_evs_append, List.map_append,
    List.map_singleton, restart_sink_evs_append]
  have htail : restart_sink_evs outputOf [REv.oneShot a (exec a)]
      = restart_ev_sink outputOf (REv.oneShot a (exec a)) := by
    simp [restart_sink_evs]
  rw [htail]
  rw [List.getLast?_append_of_ne_nil _ (fun hemp =>
    hne (List.append_eq_nil.mp hemp).2)]
  rw [List.getLast?_append_of_ne_nil _ hne]
  exact hlastone

/-- Witness for C3 at a concrete input: a two-step sequence whose first
step fails with exit code 2 stops immediately; the executed prefix is
just that step and the last sink annotation reports code 2. -/
theorem c3_restart_abort_on_failure_witness :
    ∃ (pre : List (List String)) (a : List String),
      [["make", "down"], ["make", "up"]].take (pre.length + 1)
        = pre ++ [a] ∧
      restart_steps execW3 [["make", "down"], ["make", "up"]]
        = (pre ++ [a]).map (fun x => REv.oneShot x (execW3 x)) ∧
      (∀ x ∈ pre, execW3 x = 0) ∧
      (pre.length + 1 < [["make", "down"], ["make", "up"]].length →
        execW3 a ≠ 0) ∧
      (restart_sink [["make", "down"], ["make", "up"]] execW3
          (fun _ => [])).getLast?
        = some ("\n[exit " ++ toString (execW3 a) ++ "]") :=
  c3_restart_abort_on_failure [["make", "down"], ["make", "up"]]
    execW3 (fun _ => []) (by simp)

/-- C4: when the capability-derived sequence is empty (no "restart"
target and not both "down" and "up"), the restart action is a no-op: it
only surfaces the "Restart not supported" notice and performs no
one-shot execution at all. -/
theorem c4_restart_unsupported (hasTarget : String → Bool)
    (restartArgv downArgv upArgv : List String) (exec : List String → Int)
    (h1 : hasTarget "restart" = false)
    (h2 : (hasTarget "down" && hasTarget "up") = false) :
    restart_sequence hasTarget restartArgv downArgv upArgv = [] ∧
    action_do_restart (restart_sequence hasTarget restartArgv downArgv upArgv)
        exec = [REv.toast "Restart not supported; missing targets"] ∧
    ∀ a rc, REv.oneShot a rc ∉
      action_do_restart (restart_sequence hasTarget restartArgv downArgv upArgv)
        exec := by
  have hseq : restart_sequence hasTarget restartArgv downArgv upArgv = [] := by
    simp [restart_sequence, h1, h2]
  refine ⟨hseq, ?_, ?_⟩
  · rw [hseq]; rfl
  · intro a rc
    rw [hseq]
    simp [action_do_restart]

/-- Witness for C4: the scenario of the spec with a service having only
a "down" target — the sequence is empty, only the notice is surfaced,
and no process is spawned. -/
theorem c4_restart_unsupported_witness :
    restart_sequence (fun t => t == "down") ["make", "restart"]
        ["make", "down"] ["make", "up"] = [] ∧
    action_do_restart
        (restart_sequence (fun t => t == "down") ["make", "restart"]
          ["make", "down"] ["make", "up"]) (fun _ => 0)
      = [REv.toast "Restart not supported; missing targets"] ∧
    ∀ a rc, REv.oneShot a rc ∉
      action_do_restart
        (restart_sequence (fun t => t == "down") ["make", "restart"]
          ["make", "down"] ["make", "up"]) (fun _ => 0) :=
  c4_restart_unsupported (fun t => t == "down") ["make", "restart"]
    ["make", "down"] ["make", "up"] (fun _ => 0) rfl rfl

/-- C5 counterexample: the claim says the record is updated if and only
if the probed activity state or process id differs from the recorded
values.  Probing `(active, absent)` against a record holding
`(active, pid 123)` differs in the pid component, yet `probe_row`
leaves the record untouched and fires no UI notification, because the
`pid is not None` truthiness guard skips an absent pid entirely. -/
theorem c5_counterexample :
    ((some "active", (none : Option Int)) ≠ (svcC5.active, svcC5.pid)) ∧
    probe_row_merge svcC5 (some "active") none 42 = (svcC5, false) := by
  constructor
  · decide
  · rfl

/-- C5 (amended): the record is updated, and the UI notified, if and
only if the probed activity state is truthy and differs from the
recorded one, or the probed pid is present and differs from the
recorded one.  When an update occurs, each differing probed field is
written (an absent probed pid never clears the recorded pid) and the
last-updated timestamp is set; when no update occurs the record is
completely unchanged. -/
theorem c5_amended_diff_gated (svc : Service) (active : Option String)
    (pid : Option Int) (now : Nat) :
    ((probe_row_merge svc active pid now).2 = true ↔
      ((truthyStr active = true ∧ active ≠ svc.active) ∨
        (pid.isSome = true ∧ pid ≠ svc.pid))) ∧
    (truthyStr active = true → active ≠ svc.active →
      (probe_row_merge svc active pid now).1.active = active) ∧
    (pid.isSome = true → pid ≠ svc.pid →
      (probe_row_merge svc active pid now).1.pid = pid) ∧
    (pid = none → (probe_row_merge svc active pid now).1.pid = svc.pid) ∧
    ((probe_row_merge svc active pid now).2 = true →
      (probe_row_merge svc active pid now).1.updated_at = some now) ∧
    ((probe_row_merge svc active pid now).2 = false →
      (probe_row_merge svc active pid now).1 = svc) := by
  by_cases h1 : truthyStr active <;> by_cases h2 : active = svc.active <;>
    by_cases h3 : pid.isSome <;> by_cases h4 : pid = svc.pid <;>
    simp [probe_row_merge, h1, h2, h3, h4] <;>
    simp_all [Option.isSome_iff_exists] <;> rintro rfl <;> simp_all

/-- Witness for the amended C5 at a concrete input: probing
`(inactive, absent)` against a record holding `(active, pid 123)`
updates the activity state, keeps the stale pid, and stamps the
timestamp. -/
theorem c5_amended_diff_gated_witness :
    (probe_row_merge svcW5 (some "inactive") none 7).1.active = some "inactive" ∧
    (probe_row_merge svcW5 (some "inactive") none 7).1.pid = some 123 ∧
    (probe_row_merge svcW5 (some "inactive") none 7).1.updated_at = some 7 := by
  have h := c5_amended_diff_gated svcW5 (some "inactive") none 7
  refine ⟨h.2.1 (by decide) (by decide), ?_, ?_⟩
  · exact (h.2.2.2.1 rfl).trans (by rfl)
  · exact h.2.2.2.2.1 (h.1.mpr (Or.inl ⟨by decide, by decide⟩))

/-- C6: when the probed activity state and process id both equal the
recorded values, the periodic-refresh merge performs zero mutations of
the record (timestamp included) and fires zero UI notifications. -/
theorem c6_idempotent (svc : Service) (active : Option String)
    (pid : Option Int) (now : Nat)
    (h1 : active = svc.active) (h2 : pid = svc.pid) :
    probe_row_merge svc active pid now = (svc, false) := by
  subst h1; subst h2
  simp [probe_row_merge]

/-- Witness for C6 at a concrete input. -/
theorem c6_idempotent_witness :
    probe_row_merge svcW6 (some "inactive") none 9 = (svcW6, false) :=
  c6_idempotent svcW6 (some "inactive") none 9 rfl rfl

/-- C7: a one-shot execution writes the echoed command line to the sink,
then, while the command runs, performs no sink write at all — every
arriving line is only buffered; after the process exits, all buffered
lines are flushed to the sink as one contiguous block in arrival order,
followed by the exit-code annotation, and the exit code is returned to
the caller. -/
theorem c7_one_shot_buffered (argv output : List String) (rc : Int) :
    (run_one_shot argv output rc).2 = rc ∧
    ∃ pre post : List OEv,
      (run_one_shot argv output rc).1
          = OEv.sink ("$ " ++ joinSpace argv ++ "\n")
              :: pre ++ OEv.exited rc :: post ∧
      (∀ e ∈ pre, isSink e = false) ∧
      pre.filterMap
          (fun e => match e with | OEv.arrive l => some l | _ => none)
        = output ∧
      post = output.map (fun l => OEv.sink (rstripNl l))
          ++ [OEv.sink ("\n[exit " ++ toString rc ++ "]")] := by
  refine ⟨rfl, output.map OEv.arrive,
    output.map (fun l => OEv.sink (rstripNl l))
      ++ [OEv.sink ("\n[exit " ++ toString rc ++ "]")], ?_, ?_, ?_, rfl⟩
  · simp [run_one_shot]
  · intro e he
    simp only [List.mem_map] at he
    obtain ⟨l, _, rfl⟩ := he
    rfl
  · simp [List.filterMap_map]
    exact List.filterMap_some output

/-- Witness for C7 at a concrete input: a two-line output and exit
code 0. -/
theorem c7_one_shot_buffered_witness :
    (run_one_shot ["make", "up"] ["ok\n", "done\n"] 0).2 = 0 ∧
    ∃ pre post : List OEv,
      (run_one_shot ["make", "up"] ["ok\n", "done\n"] 0).1
          = OEv.sink ("$ " ++ joinSpace ["make", "up"] ++ "\n")
              :: pre ++ OEv.exited 0 :: post ∧
      (∀ e ∈ pre, isSink e = false) ∧
      pre.filterMap
          (fun e => match e with | OEv.arrive l => some l | _ => none)
        = ["ok\n", "done\n"] ∧
      post = ["ok\n", "done\n"].map (fun l => OEv.sink (rstripNl l))
          ++ [OEv.sink ("\n[exit " ++ toString (0 : Int) ++ "]")] :=
  c7_one_shot_buffered ["make", "up"] ["ok\n", "done\n"] 0

/-- C8 counterexample: the claim says that when the activity state is
not `active` the process id is displayed as absent.  For an inactive
service with recorded pid 123, both `_add_row` and
`_update_row_by_row` put `"123"` in the PID cell — the stale pid
itself, not the absent rendering (`str(None) = "None"`). -/
theorem c8_counterexample :
    svcC8.active ≠ some "active" ∧
    (add_row_cells "minimal" (fun _ => "-") svcC8).get? 2 = some "123" ∧
    (update_row_cells "minimal" (fun _ => "-") svcC8).get? 2 = some "123" ∧
    (some "123" : Option String) ≠ some (pyStr none) := by
  refine ⟨by decide, rfl, rfl, by decide⟩

/-- C8 (amended): the PID cell always renders `str(svc.pid)` of the
recorded pid field, regardless of the activity state, both when a row
is added and when a row is updated; a stale pid therefore remains
displayed when the service is not active, and an absent pid renders as
the string `"None"`. -/
theorem c8_amended_pid_always_shown (mode : String) (fmt : Nat → String)
    (svc : Service) :
    (add_row_cells mode fmt svc).get? 2 = some (pyStr svc.pid) ∧
    (update_row_cells mode fmt svc).get? 2 = some (pyStr svc.pid) := by
  constructor <;> by_cases h : mode == "full" <;>
    simp [add_row_cells, update_row_cells, h]

/-- C9 counterexample: the claim says every index held by the
orchestration layer is validated against the current length before
use, so no out-of-range access occurs even when the collection shrinks
between the time the index was taken and the time it is used.  The
periodic refresh snapshots `rows = list(range(len(self._rows)))` and
then, after suspension points, evaluates `self._rows[row]` with no
validation: with the visible-row mapping shrunk to `[]` (for example by
a search rebuild during the tick) and the stale snapshot row `0`,
`probe_row` performs an out-of-range access (a raised IndexError,
modelled as `none`) instead of a validated skip. -/
theorem c9_counterexample :
    probe_row [] [svcC9] 0 RawProbe.failure 0 = none := rfl

/-- C9 (amended): the indices used on the selection paths are validated
before use — `_on_row_highlighted` checks both the row and the derived
registry index, `_select_row` (hence the manual-refresh selection)
checks the row and leaves the selection unchanged when it is out of
range, and `_selected_service` checks the row and is safe under the
rebuild invariant that every visible-row entry is below the registry
length (which `_visible_indices` guarantees).  The `probe_row` of the
periodic refresh, however, uses its snapshotted row index without
revalidation, so a shrink of the visible-row mapping between snapshot
and use causes an out-of-range access there; it surfaces as an
exception absorbed by the catch-all of the refresh loop (the loop
keeps running) rather than being prevented. -/
theorem c9_amended_validation (rowsMap : List Nat) (services : List Service)
    (row : Nat) (cr : Option Nat) (sel : Nat) (raw : RawProbe) (now : Nat)
    (search_pred : Service → Bool) (filt : String)
    (hinv : ∀ i ∈ rowsMap, i < services.length) :
    (row_highlight_lookup rowsMap services row).isSome = true ∧
    (selected_service rowsMap services cr).isSome = true ∧
    (rowsMap.length ≤ row → select_row rowsMap sel row = sel) ∧
    (∀ i ∈ visible_indices services search_pred filt, i < services.length) ∧
    (rowsMap.length ≤ row → probe_row rowsMap services row raw now = none) ∧
    loop_continues TickOutcome.exn = true := by
  refine ⟨?_, ?_, ?_, visible_indices_lt services search_pred filt, ?_, rfl⟩
  · unfold row_highlight_lookup
    by_cases hr : row < rowsMap.length
    · cases hmap : rowsMap.get? row with
      | none => exact absurd (List.get?_eq_none.mp hmap) (by omega)
      | some idx =>
        by_cases hi : idx < services.length
        · cases hsvc : services.get? idx with
          | none => exact absurd (List.get?_eq_none.mp hsvc) (by omega)
          | some svc =>
            simp only [if_pos hr, hmap, if_pos hi, hsvc, Option.isSome_some]
        · simp only [if_pos hr, hmap, if_neg hi, Option.isSome_some]
    · simp only [if_neg hr, Option.isSome_some]
  · unfold selected_service
    cases cr with
    | none => rfl
    | some r =>
      by_cases hr : r < rowsMap.length
      · cases hmap : rowsMap.get? r with
        | none => exact absurd (List.get?_eq_none.mp hmap) (by omega)
        | some idx =>
          have hi : idx < services.length := hinv idx (List.get?_mem hmap)
          cases hsvc : services.get? idx with
          | none => exact absurd (List.get?_eq_none.mp hsvc) (by omega)
          | some svc =>
            simp only [if_pos hr, hmap, hsvc, Option.isSome_some]
      · simp only [if_neg hr, Option.isSome_some]
  · intro hle
    unfold select_row
    rw [if_neg (by omega)]
  · intro hle
    unfold probe_row
    rw [List.get?_eq_none.mpr hle]

/-- Witness for the amended C9 at a concrete input: one service, one
visible row, and a stale snapshot row index 5. -/
theorem c9_amended_validation_witness :
    (row_highlight_lookup [0] [svcW9] 5).isSome = true ∧
    (selected_service [0] [svcW9] (some 0)).isSome = true ∧
    ([0].length ≤ 5 → select_row [0] 7 5 = 7) ∧
    (∀ i ∈ visible_indices [svcW9] (fun _ => true) "all",
      i < [svcW9].length) ∧
    ([0].length ≤ 5 → probe_row [0] [svcW9] 5 RawProbe.failure 0 = none) ∧
    loop_continues TickOutcome.exn = true :=
  c9_amended_validation [0] [svcW9] 5 (some 0) 7 RawProbe.failure 0
    (fun _ => true) "all" (by decide)

/-- C10: the on-demand probe on a selection change mutates the record
unconditionally rather than diff-gated.  For every prober result, the
activity state is overwritten (the prober always returns a truthy
state), the pid is overwritten whenever the probed pid is present and
kept when it is absent, the last-updated timestamp is never touched —
while the merge of the periodic refresh loop stamps the timestamp on
every change it reports. -/
theorem c10_highlight_unconditional (svc : Service) (r : RawProbe) :
    (on_row_highlighted_update svc (probe_status r).1 (probe_status r).2).active
        = (probe_status r).1 ∧
    ((probe_status r).2.isSome = true →
      (on_row_highlighted_update svc (probe_status r).1 (probe_status r).2).pid
          = (probe_status r).2) ∧
    ((probe_status r).2 = none →
      (on_row_highlighted_update svc (probe_status r).1 (probe_status r).2).pid
          = svc.pid) ∧
    (on_row_highlighted_update svc (probe_status r).1 (probe_status r).2).updated_at
        = svc.updated_at ∧
    (∀ svc2 : Service, ∀ now : Nat,
      (probe_row_merge svc2 (probe_status r).1 (probe_status r).2 now).2 = true →
      (probe_row_merge svc2 (probe_status r).1 (probe_status r).2 now).1.updated_at
          = some now) := by
  have ht := probe_status_truthy r
  refine ⟨?_, ?_, ?_, ?_, ?_⟩
  · simp only [on_row_highlighted_update, ht, if_true]
    split <;> rfl
  · intro hp
    simp [on_row_highlighted_update, ht, hp]
  · intro hp
    simp [on_row_highlighted_update, ht, hp]
  · simp only [on_row_highlighted_update, ht, if_true]
    split <;> rfl
  · intro svc2 now
    exact probe_row_merge_stamps svc2 (probe_status r).1 (probe_status r).2 now

/-- Witness for C10 at a concrete input where the probed values equal
the recorded ones: the fields are still overwritten (with the same
values) and the timestamp is untouched. -/
theorem c10_highlight_unconditional_witness :
    (on_row_highlighted_update svcW10 (probe_status (RawProbe.ok "active" (some 5))).1
        (probe_status (RawProbe.ok "active" (some 5))).2).active = some "active" ∧
    (on_row_highlighted_update svcW10 (probe_status (RawProbe.ok "active" (some 5))).1
        (probe_status (RawProbe.ok "active" (some 5))).2).pid = some 5 ∧
    (on_row_highlighted_update svcW10 (probe_status (RawProbe.ok "active" (some 5))).1
        (probe_status (RawProbe.ok "active" (some 5))).2).updated_at = some 11 := by
  have h := c10_highlight_unconditional svcW10 (RawProbe.ok "active" (some 5))
  exact ⟨h.1, h.2.1 (by rfl), h.2.2.2.1⟩

end WeDash
